import Mathlib

set_option maxHeartbeats 1000000

/-!
Verification of the header tag formatter subsystem (lib/formats.c): the
tagged value data model, the individual converters, the format registry,
and the OpenPGP signature summarizer with its retry until fits loop.
-/

namespace RpmFormat

/-- Tag data types of the tag data container (rpmTagType values used by the
converters). -/
inductive RpmTagType where
  | null | char | int8 | int16 | int32 | int64 | str | strArray | i18nStr | bin
deriving DecidableEq

/-- Tag data container (rpmtd): a type tag, an element count, and the current
element viewed as an unsigned number, a string, or raw bytes depending on the
type tag. Converters only read the view that matches the code path taken. -/
structure Rpmtd where
  ttype : RpmTagType
  count : Nat
  num : Nat
  str : String
  data : List Nat
deriving DecidableEq

/-- Structured record produced by the external OpenPGP packet field parser
(the signature member filled by pgpPrtPkts): public key algorithm id, hash
algorithm id, 4 byte creation time, 8 byte key id. -/
structure SigParams where
  pubkey_algo : Nat
  hash_algo : Nat
  time : List Nat
  signid : List Nat
deriving DecidableEq

/-- External collaborators consumed by the converters: base64 codec, ascii
armor wrap, permission string primitive, local calendar time conversion
(localtimeOk tells whether localtime succeeds, strftimeC and strftimeDay give
the formatted date text for a time value), and the OpenPGP packet field
parser. The converters are parameterized over these. -/
structure ExtFns where
  b64encode : List Nat → Nat → Option String
  b64decode : String → Option (List Nat)
  pgpArmorWrap : Nat → List Nat → Nat → String
  rpmPermsString : Nat → String
  localtimeOk : Nat → Bool
  strftimeC : Nat → String
  strftimeDay : Nat → String
  pgpPrt : List Nat → Nat → SigParams

/-- Argument passed through the sprintf style template. -/
inductive PArg where
  | nat (n : Nat)
  | int (i : Int)
  | str (s : String)

/-- Value of a 32 bit unsigned number reinterpreted as a signed int, as the
d conversion of printf does with a uint32 argument. -/
def int32Of (n : Nat) : Int :=
  if n % 4294967296 < 2147483648 then (n % 4294967296 : Int)
  else (n % 4294967296 : Int) - 4294967296

/-- Model of rasprintf applied to the template built by a converter: the
template is the caller supplied percent text plus a final conversion letter,
and only the conversion letter and the argument decide the output. Width and
flag characters, which no claim exercises, are not modelled. -/
def sprintfPct (fmt : String) (a : PArg) : String :=
  match fmt.back, a with
  | 'u', PArg.nat n => toString n
  | 'o', PArg.nat n => (Nat.toDigits 8 n).asString
  | 'x', PArg.nat n => (Nat.toDigits 16 n).asString
  | 'd', PArg.int i => toString i
  | 's', PArg.str s => s
  | _, _ => ""

/-- Hex text of one byte, lowercase, two digits. -/
def byteHex (b : Nat) : List Char :=
  [Nat.digitChar (b % 256 / 16), Nat.digitChar (b % 16)]

/-- pgpHexStr: lowercase hex dump of the first n bytes of a buffer. -/
def pgpHexStr (l : List Nat) (n : Nat) : String :=
  ⟨(l.take n).flatMap byteHex⟩

/-- rpmtdGetString: the current string element for string kinds; for other
kinds the C function returns NULL, which the s conversion of printf renders
as the text (null). -/
def rpmtdGetString (td : Rpmtd) : String :=
  match td.ttype with
  | .str | .strArray | .i18nStr => td.str
  | _ => "(null)"

/-- stringFormat: barebones string representation with no extra formatting. -/
def stringFormat (td : Rpmtd) (fp : String) : String × Option String :=
  match td.ttype with
  | .int8 | .char => (fp ++ "u", some (sprintfPct (fp ++ "u") (PArg.nat td.num)))
  | .int16 => (fp ++ "u", some (sprintfPct (fp ++ "u") (PArg.nat td.num)))
  | .int32 => (fp ++ "u", some (sprintfPct (fp ++ "u") (PArg.nat td.num)))
  | .int64 => (fp ++ "lu", some (sprintfPct (fp ++ "lu") (PArg.nat td.num)))
  | .str | .strArray | .i18nStr =>
      (fp ++ "s", some (sprintfPct (fp ++ "s") (PArg.str td.str)))
  | .bin =>
      (fp ++ "s", some (sprintfPct (fp ++ "s") (PArg.str (pgpHexStr td.data td.count))))
  | .null => (fp, some "(unknown type)")

/-- octalFormat. -/
def octalFormat (td : Rpmtd) (fp : String) : String × Option String :=
  if td.ttype ≠ .int32 then (fp, some "(not a number)")
  else (fp ++ "o", some (sprintfPct (fp ++ "o") (PArg.nat td.num)))

/-- hexFormat. -/
def hexFormat (td : Rpmtd) (fp : String) : String × Option String :=
  if td.ttype ≠ .int32 then (fp, some "(not a number)")
  else (fp ++ "x", some (sprintfPct (fp ++ "x") (PArg.nat td.num)))

/-- realDateFormat: shared body of the date and day converters. The value is
widened to a time value and converted with localtime; on success strftime
renders into a 50 byte buffer with size argument 49, so a formatted date of
at most 48 characters is kept and a longer one is dropped; when localtime
fails the buffer stays empty. -/
def realDateFormat (td : Rpmtd) (fp : String) (lok : Nat → Bool) (sf : Nat → String) :
    String × Option String :=
  if td.ttype ≠ .int32 then (fp, some "(not a number)")
  else
    let buf := if lok td.num then (if (sf td.num).length ≤ 48 then sf td.num else "") else ""
    (fp ++ "s", some (sprintfPct (fp ++ "s") (PArg.str buf)))

/-- dateFormat: full local date and time (strftime with the c directive). -/
def dateFormat (E : ExtFns) (td : Rpmtd) (fp : String) : String × Option String :=
  realDateFormat td fp E.localtimeOk E.strftimeC

/-- dayFormat: abbreviated weekday, month, day, year. -/
def dayFormat (E : ExtFns) (td : Rpmtd) (fp : String) : String × Option String :=
  realDateFormat td fp E.localtimeOk E.strftimeDay

/-- The single quote character. -/
def squoC : Char := Char.ofNat 39

/-- The single quote character as a string. -/
def squo : String := squoC.toString

/-- Per character shell escape step: a single quote becomes the four
character sequence close quote, backslash, quote, reopen quote; every other
character is copied. -/
def shEscL (c : Char) : List Char :=
  if c = squoC then [squoC, '\\', squoC, squoC] else [c]

/-- Shell quoting transform of shescapeFormat: open quote, escaped body,
close quote. -/
def shQuote (s : String) : String :=
  ⟨squoC :: (s.toList.flatMap shEscL ++ [squoC])⟩

/-- shescapeFormat: decimal for Int32, otherwise render the string form and
wrap it in single quotes, escaping embedded single quotes. -/
def shescapeFormat (td : Rpmtd) (fp : String) : String × Option String :=
  if td.ttype = .int32 then
    (fp ++ "d", some (sprintfPct (fp ++ "d") (PArg.int (int32Of td.num))))
  else
    (fp ++ "s", some (shQuote (sprintfPct (fp ++ "s") (PArg.str (rpmtdGetString td)))))

/-- Trigger phase bits, values from the public dependency set header of the
library (outside src). -/
def RPMSENSE_TRIGGERIN : Nat := 65536
def RPMSENSE_TRIGGERUN : Nat := 131072
def RPMSENSE_TRIGGERPOSTUN : Nat := 262144
def RPMSENSE_TRIGGERPREIN : Nat := 33554432

/-- Dependency comparison bits, values from the public dependency set header
of the library (outside src). -/
def RPMSENSE_LESS : Nat := 2
def RPMSENSE_GREATER : Nat := 4
def RPMSENSE_EQUAL : Nat := 8

/-- triggertypeFormat: first matching trigger phase bit wins. -/
def triggertypeFormat (td : Rpmtd) (fp : String) : String × Option String :=
  if td.ttype ≠ .int32 then (fp, some "(not a number)")
  else if td.num &&& RPMSENSE_TRIGGERPREIN ≠ 0 then (fp, some "prein")
  else if td.num &&& RPMSENSE_TRIGGERIN ≠ 0 then (fp, some "in")
  else if td.num &&& RPMSENSE_TRIGGERUN ≠ 0 then (fp, some "un")
  else if td.num &&& RPMSENSE_TRIGGERPOSTUN ≠ 0 then (fp, some "postun")
  else (fp, some "")

/-- permsFormat: file mode rendered through the external permission string
primitive. -/
def permsFormat (E : ExtFns) (td : Rpmtd) (fp : String) : String × Option String :=
  if td.ttype ≠ .int32 then (fp, some "(not a number)")
  else (fp ++ "s", some (sprintfPct (fp ++ "s") (PArg.str (E.rpmPermsString td.num))))

/-- File attribute bits, values from the public file info header of the
library (outside src). -/
def RPMFILE_CONFIG : Nat := 1
def RPMFILE_DOC : Nat := 2
def RPMFILE_MISSINGOK : Nat := 8
def RPMFILE_NOREPLACE : Nat := 16
def RPMFILE_SPECFILE : Nat := 32
def RPMFILE_GHOST : Nat := 64
def RPMFILE_LICENSE : Nat := 128
def RPMFILE_README : Nat := 256

/-- Character string built by fflagsFormat: one character per set flag, in
the fixed order doc, config, specfile, missingok, noreplace, ghost, license,
readme. -/
def fflagsStr (v : Nat) : String :=
  (if v &&& RPMFILE_DOC ≠ 0 then "d" else "") ++
  (if v &&& RPMFILE_CONFIG ≠ 0 then "c" else "") ++
  (if v &&& RPMFILE_SPECFILE ≠ 0 then "s" else "") ++
  (if v &&& RPMFILE_MISSINGOK ≠ 0 then "m" else "") ++
  (if v &&& RPMFILE_NOREPLACE ≠ 0 then "n" else "") ++
  (if v &&& RPMFILE_GHOST ≠ 0 then "g" else "") ++
  (if v &&& RPMFILE_LICENSE ≠ 0 then "l" else "") ++
  (if v &&& RPMFILE_README ≠ 0 then "r" else "")

/-- fflagsFormat: file flags for display. -/
def fflagsFormat (td : Rpmtd) (fp : String) : String × Option String :=
  if td.ttype ≠ .int32 then (fp, some "(not a number)")
  else (fp ++ "s", some (sprintfPct (fp ++ "s") (PArg.str (fflagsStr td.num))))

/-- Armor block type codes, values from the public OpenPGP header of the
library (outside src). -/
def PGPARMOR_PUBKEY : Nat := 2
def PGPARMOR_SIGNATURE : Nat := 3

/-- armorFormat: Binary wraps as a signature block; String and StringArray
base64 decode first and wrap as a pubkey block; other kinds are invalid. -/
def armorFormat (E : ExtFns) (td : Rpmtd) (fp : String) : String × Option String :=
  match td.ttype with
  | .bin => (fp, some (E.pgpArmorWrap PGPARMOR_SIGNATURE td.data td.count))
  | .str | .strArray =>
    match E.b64decode (rpmtdGetString td) with
    | none => (fp, some "(not base64)")
    | some bs => (fp, some (E.pgpArmorWrap PGPARMOR_PUBKEY bs bs.length))
  | _ => (fp, some "(invalid type)")

/-- base64Format: requires Binary; the result is only assigned inside the
guard that the external encoder returned non NULL, so an encoder failure
leaves the NULL initial value as the returned result. -/
def base64Format (E : ExtFns) (td : Rpmtd) (fp : String) : String × Option String :=
  if td.ttype ≠ .bin then (fp, some "(not a blob)")
  else
    match E.b64encode td.data td.count with
    | some enc => (fp ++ "s", some (sprintfPct (fp ++ "s") (PArg.str enc)))
    | none => (fp, none)

/-- Per character xml escape step of xmlFormat. -/
def xmlEscChar (c : Char) : String :=
  if c = '<' then "&lt;"
  else if c = '>' then "&gt;"
  else if c = '&' then "&amp;"
  else c.toString

/-- Escaped inner text accumulated character by character by xmlFormat. -/
def xmlEscape (s : String) : String :=
  String.join (s.toList.map xmlEscChar)

/-- xmlFormat: pick the xml leaf tag by kind and render the inner text, then
escape and wrap. The inner text comes from rpmtdFormat, repo code outside
src. Modelled from the spec: rpmtdFormat renders the current value with the
converter selected by the format code and a plain percent template, so
string kinds give the current string, Binary gives the base64 text, and the
integer kinds give the decimal text. -/
def xmlFormat (E : ExtFns) (td : Rpmtd) (fp : String) : String × Option String :=
  let pick : Option (String × String) :=
    match td.ttype with
    | .str | .strArray | .i18nStr => some ("string", ((stringFormat td "%").2).getD "")
    | .bin => some ("base64", ((base64Format E td "%").2).getD "")
    | .char | .int8 | .int16 | .int32 => some ("integer", ((stringFormat td "%").2).getD "")
    | _ => none
  match pick with
  | none => (fp, some "(invalid xml type)")
  | some (xtag, s) =>
    if s = "" then (fp ++ "s", some ("\t<" ++ xtag ++ "/>"))
    else (fp ++ "s", some ("\t<" ++ xtag ++ ">" ++ xmlEscape s ++ "</" ++ xtag ++ ">"))

/-- Character string built by depflagsFormat. -/
def depflagsStr (v : Nat) : String :=
  (if v &&& RPMSENSE_LESS ≠ 0 then "<" else "") ++
  (if v &&& RPMSENSE_GREATER ≠ 0 then ">" else "") ++
  (if v &&& RPMSENSE_EQUAL ≠ 0 then "=" else "")

/-- depflagsFormat: dependency comparison flags for display. -/
def depflagsFormat (td : Rpmtd) (fp : String) : String × Option String :=
  if td.ttype ≠ .int32 then (fp, some "(not a number)")
  else (fp ++ "s", some (sprintfPct (fp ++ "s") (PArg.str (depflagsStr td.num))))

/-- arraysizeFormat: the element count, regardless of kind. -/
def arraysizeFormat (td : Rpmtd) (fp : String) : String × Option String :=
  (fp ++ "u", some (sprintfPct (fp ++ "u") (PArg.nat td.count)))

/-- pgpGrab: big endian value of the first n bytes of a buffer, repo code
outside src. Modelled from the spec: the old format header reads a 1, 2 or 4
byte big endian length field. -/
def pgpGrab (l : List Nat) (n : Nat) : Nat :=
  (l.take n).foldl (fun a b => a * 256 + b % 256) 0

/-- pgpLen: new format variable length length decoding, repo code outside
src. Modelled from the spec: the new format header uses a variable length
length encoding read from subsequent bytes; returns the size of the length
field and the body length. -/
def pgpLen (l : List Nat) : Nat × Nat :=
  let b0 := l.headD 0 % 256
  if b0 < 192 then (1, b0)
  else if b0 < 255 then (2, ((b0 - 192) <<< 8) + (l.getD 1 0 % 256) + 192)
  else (5, pgpGrab (l.drop 1) 4)

/-- Signature packet tag id, value from the public OpenPGP header of the
library (outside src). -/
def PGPTAG_SIGNATURE : Nat := 2

/-- Packet header decode at the start of pgpsigFormat: the first byte must
have bit 7 set, bit 6 selects the new format (pgpLen) or the old format
(2 bit length type selecting a 1, 2, 4 or 8 byte field); yields the packet
tag and the total packet length. When bit 7 is clear the C code leaves
pktlen at 0, modelled here as none. -/
def pgpsigHdr (data : List Nat) : Option (Nat × Nat) :=
  let v := data.headD 0 % 256
  if v &&& 128 ≠ 0 then
    if v &&& 64 ≠ 0 then
      let pl := pgpLen (data.drop 1)
      some (v &&& 63, 1 + pl.1 + pl.2)
    else
      let plen := 2 ^ (v &&& 3)
      some ((v >>> 2) &&& 15, 1 + plen + pgpGrab (data.drop 1) plen)
  else none

/-- Public key algorithm piece of the signature summary: symbolic name for
DSA (id 17) and RSA (id 1), otherwise the decimal id. -/
def sigAlgoStr (a : Nat) : String :=
  if a = 17 then "DSA" else if a = 1 then "RSA" else toString a

/-- Hash algorithm piece of the signature summary: symbolic name for MD5
(id 1) and SHA1 (id 2), otherwise the decimal id. -/
def sigHashStr (h : Nat) : String :=
  if h = 1 then "MD5" else if h = 2 then "SHA1" else toString h

/-- Localized date piece of the signature summary: the 4 byte creation time
is read big endian, converted with localtime, and formatted with the c
directive of strftime; an unconvertible time leaves the piece empty. -/
def sigDateStr (E : ExtFns) (P : SigParams) : String :=
  let t := pgpGrab P.time 4
  if E.localtimeOk t then E.strftimeC t else ""

/-- Key id piece of the signature summary: hex of the 8 byte key id. -/
def sigKeyStr (P : SigParams) : String :=
  pgpHexStr P.signid 8

/-- Truncation to at most n characters, as snprintf with size n + 1 keeps. -/
def strTake (s : String) (n : Nat) : String :=
  ⟨s.toList.take n⟩

/-- One rendering attempt of the retry until fits loop of pgpsigFormat into
a buffer of nb + 1 bytes: write the algorithm piece (snprintf bounded for
the decimal case), check slack of 5 before the slash, write the hash piece,
check slack of 3 before the comma, let strftime write the date only when it
fits in the remaining space, check slack of 10 before the key id label,
write the label, and check that the key id hex fits; any failed check makes
the C code jump back to grow the buffer, modelled as none. -/
def sigPass (E : ExtFns) (P : SigParams) (nb : Nat) : Option String :=
  let w1 := if P.pubkey_algo = 17 then "DSA"
            else if P.pubkey_algo = 1 then "RSA"
            else strTake (toString P.pubkey_algo) (nb - 1)
  if w1.length + 5 ≥ nb then none else
  let w2 := if P.hash_algo = 1 then "MD5"
            else if P.hash_algo = 2 then "SHA1"
            else strTake (toString P.hash_algo) (nb - (w1.length + 1) - 1)
  if w1.length + 1 + w2.length + 3 ≥ nb then none else
  let d := sigDateStr E P
  let wd := if d.length + 1 ≤ nb - (w1.length + 1 + w2.length + 2) then d else ""
  if w1.length + 1 + w2.length + 2 + wd.length + 10 ≥ nb then none else
  if w1.length + 1 + w2.length + 2 + wd.length + 9 + (sigKeyStr P).length > nb then none else
  some (w1 ++ "/" ++ w2 ++ ", " ++ wd ++ ", Key ID " ++ sigKeyStr P)

/-- The retry until fits loop: run one pass with the current buffer size and
on a failed slack check grow by 100 and restart from the beginning. The C
loop has no fuel; the fuel argument is a modelling device shown below to be
large enough. -/
def sigLoop (E : ExtFns) (P : SigParams) : Nat → Nat → Option String
  | 0, _ => none
  | f + 1, nb =>
    match sigPass E P nb with
    | some s => some s
    | none => sigLoop E P f (nb + 100)

/-- Total length of the pieces of the signature summary plus the fixed
literals (slash, comma space, Key ID label). -/
def sigLen (E : ExtFns) (P : SigParams) : Nat :=
  (sigAlgoStr P.pubkey_algo).length + (sigHashStr P.hash_algo).length +
    (sigDateStr E P).length + (sigKeyStr P).length + 12

/-- The summary rendering of pgpsigFormat: start with a 100 byte buffer and
retry with 100 more bytes after each failed slack check. The fuel is large
enough, as proven below. -/
def pgpsigRender (E : ExtFns) (P : SigParams) : Option String :=
  sigLoop E P (sigLen E P / 100 + 2) 100

/-- pgpsigFormat: display signature fingerprint and time. Requires Binary;
decodes the packet header, requires a signature packet, parses the packet
with the external parser, and renders the summary with the retry loop. -/
def pgpsigFormat (E : ExtFns) (td : Rpmtd) (fp : String) : String × Option String :=
  if td.ttype ≠ .bin then (fp, some "(not a blob)")
  else
    match pgpsigHdr td.data with
    | none => (fp, some "(not an OpenPGP signature)")
    | some (tag, pktlen) =>
      if pktlen = 0 ∨ tag ≠ PGPTAG_SIGNATURE then (fp, some "(not an OpenPGP signature)")
      else (fp, pgpsigRender E (E.pgpPrt td.data pktlen))

/-- Identity of a converter function stored in the registry. -/
inductive FmtId where
  | str | armor | base64 | pgpsig | depflags | fflags | perms
  | triggertype | xml | octal | hex | date | day | shescape | arraysize
deriving DecidableEq

/-- Dispatch a registry entry to its converter. -/
def applyFmt (E : ExtFns) : FmtId → Rpmtd → String → String × Option String
  | .str => stringFormat
  | .armor => armorFormat E
  | .base64 => base64Format E
  | .pgpsig => pgpsigFormat E
  | .depflags => depflagsFormat
  | .fflags => fflagsFormat
  | .perms => permsFormat E
  | .triggertype => triggertypeFormat
  | .xml => xmlFormat E
  | .octal => octalFormat
  | .hex => hexFormat
  | .date => dateFormat E
  | .day => dayFormat E
  | .shescape => shescapeFormat
  | .arraysize => arraysizeFormat

/-- The format registry table, in source order: format code, name, converter.
The code values come from the public tag data header of the library (outside
src); the sentinel terminator is modelled by the end of the list. -/
def rpmHeaderFormats : List (Int × String × FmtId) :=
  [(0, "string", .str),
   (1, "armor", .armor),
   (2, "base64", .base64),
   (3, "pgpsig", .pgpsig),
   (4, "depflags", .depflags),
   (5, "fflags", .fflags),
   (6, "perms", .perms),
   (6, "permissions", .perms),
   (7, "triggertype", .triggertype),
   (8, "xml", .xml),
   (9, "octal", .octal),
   (10, "hex", .hex),
   (11, "date", .date),
   (12, "day", .day),
   (13, "shescape", .shescape),
   (14, "arraysize", .arraysize)]

/-- Registry lookup by name: linear scan in declared order, first exact
match wins, none when the sentinel is reached. -/
def rpmHeaderFormatFuncByName (fmt : String) : Option FmtId :=
  (rpmHeaderFormats.find? (fun e => e.2.1 == fmt)).map (fun e => e.2.2)

/-- Registry lookup by format code: linear scan in declared order, first
match wins. -/
def rpmHeaderFormatFuncByValue (fmt : Int) : Option FmtId :=
  (rpmHeaderFormats.find? (fun e => e.1 == fmt)).map (fun e => e.2.2)

/-- Single pass rendering of the signature summary into an unbounded buffer,
following the spec wording: algorithm name, slash, hash name, comma space,
localized date, the Key ID label, hex key id. This is the refinement target
the retry loop is compared against. -/
def sigSingle (E : ExtFns) (P : SigParams) : String :=
  sigAlgoStr P.pubkey_algo ++ "/" ++ sigHashStr P.hash_algo ++ ", " ++
    sigDateStr E P ++ ", Key ID " ++ sigKeyStr P

mutual

/-- Evaluation of a POSIX shell word: a single quote opens a quoted segment,
a backslash escapes the next character, any other character stands for
itself; none on a syntax error (dangling backslash or unclosed quote). Used
to state the round trip property of the shell escape converter. -/
def shEvalWord : List Char → Option (List Char)
  | [] => some []
  | c :: rest =>
    if c = squoC then shEvalQuoted rest
    else if c = '\\' then
      match rest with
      | [] => none
      | c2 :: rest2 => (shEvalWord rest2).map (fun l => c2 :: l)
    else (shEvalWord rest).map (fun l => c :: l)
termination_by l => l.length
decreasing_by all_goals (simp_wf; try omega)

/-- Evaluation inside a single quoted segment: every character up to the
closing quote stands for itself, the closing quote returns to word mode. -/
def shEvalQuoted : List Char → Option (List Char)
  | [] => none
  | c :: rest =>
    if c = squoC then shEvalWord rest
    else (shEvalQuoted rest).map (fun l => c :: l)
termination_by l => l.length
decreasing_by all_goals (simp_wf; try omega)

end

/-- Append a piece when its flag is set, used to characterize the flag
string builders. -/
def optCat (b : Bool) (s : String) : String :=
  bif b then s else ""

/-- The per bit pieces of the file flags string, in the declared fixed
order. -/
def fflagPairs (v : Nat) : List (Bool × String) :=
  [(decide (v &&& RPMFILE_DOC ≠ 0), "d"),
   (decide (v &&& RPMFILE_CONFIG ≠ 0), "c"),
   (decide (v &&& RPMFILE_SPECFILE ≠ 0), "s"),
   (decide (v &&& RPMFILE_MISSINGOK ≠ 0), "m"),
   (decide (v &&& RPMFILE_NOREPLACE ≠ 0), "n"),
   (decide (v &&& RPMFILE_GHOST ≠ 0), "g"),
   (decide (v &&& RPMFILE_LICENSE ≠ 0), "l"),
   (decide (v &&& RPMFILE_README ≠ 0), "r")]

/-- A localized date text of 85 characters, fitting the first buffer of the
signature summary while forcing one restart of the retry loop. -/
def dStr85 : String := ⟨List.replicate 85 'a'⟩

/-- A localized date text of 95 characters, too long for the space left in
the first buffer of the signature summary. -/
def dStr95 : String := ⟨List.replicate 95 'a'⟩

/-- External collaborators instance whose date text is 85 characters. -/
def extOk : ExtFns :=
  ⟨fun _ _ => some "", fun _ => none, fun _ _ _ => "", fun _ => "",
   fun _ => true, fun _ => dStr85, fun _ => "",
   fun _ _ => ⟨17, 2, [0, 0, 0, 0], [1, 2, 3, 4, 5, 6, 7, 8]⟩⟩

/-- External collaborators instance whose date text is 95 characters. -/
def extLongDate : ExtFns :=
  ⟨fun _ _ => some "", fun _ => none, fun _ _ _ => "", fun _ => "",
   fun _ => true, fun _ => dStr95, fun _ => "",
   fun _ _ => ⟨17, 2, [0, 0, 0, 0], [1, 2, 3, 4, 5, 6, 7, 8]⟩⟩

/-- External collaborators instance whose base64 encoder fails. -/
def extEncFail : ExtFns :=
  ⟨fun _ _ => none, fun _ => none, fun _ _ _ => "", fun _ => "",
   fun _ => false, fun _ => "", fun _ => "",
   fun _ _ => ⟨0, 0, [], []⟩⟩

/-- A Binary tagged value holding a minimal old format signature packet:
first byte 0x88 (bit 7 set, bit 6 clear, tag bits 2, length type 0), one
length byte 1, one body byte. -/
def tdSigPkt : Rpmtd := ⟨.bin, 3, 0, "", [136, 1, 0]⟩

/-- A Binary tagged value whose first byte has bit 7 clear. -/
def tdNotSig : Rpmtd := ⟨.bin, 1, 0, "", [0]⟩

/-- An Int32 tagged value with the TRIGGERPREIN bit set. -/
def tdTrig : Rpmtd := ⟨.int32, 1, 33554432, "", []⟩

/-- A String tagged value with an embedded single quote (OBrien with a
quote between O and Brien). -/
def tdOBrien : Rpmtd := ⟨.str, 1, 0, "O" ++ squo ++ "Brien", []⟩

/-- An Int32 tagged value holding the unsigned form of minus one. -/
def tdMinusOne : Rpmtd := ⟨.int32, 1, 4294967295, "", []⟩

/-- An Int32 tagged value with only the GHOST and DOC bits set. -/
def tdGhostDoc : Rpmtd := ⟨.int32, 1, 66, "", []⟩

/-- A String tagged value used for type mismatch checks. -/
def tdStr : Rpmtd := ⟨.str, 1, 0, "a<b&c", []⟩

/-- An empty Binary tagged value. -/
def tdBin0 : Rpmtd := ⟨.bin, 0, 0, "", []⟩

lemma strTake_of_le (s : String) (n : Nat) (h : s.length ≤ n) : strTake s n = s := by
  unfold strTake
  rw [List.take_of_length_le (show s.toList.length ≤ n from h)]
  rfl

lemma sigW1 (P : SigParams) (nb : Nat) (h : (sigAlgoStr P.pubkey_algo).length ≤ nb - 1) :
    (if P.pubkey_algo = 17 then "DSA" else if P.pubkey_algo = 1 then "RSA"
     else strTake (toString P.pubkey_algo) (nb - 1)) = sigAlgoStr P.pubkey_algo := by
  by_cases h1 : P.pubkey_algo = 17
  · simp [sigAlgoStr, h1]
  · by_cases h2 : P.pubkey_algo = 1
    · simp [sigAlgoStr, h1, h2]
    · simp only [sigAlgoStr, h1, h2, if_false] at h ⊢
      exact strTake_of_le _ _ h

lemma sigW2 (P : SigParams) (m : Nat) (h : (sigHashStr P.hash_algo).length ≤ m) :
    (if P.hash_algo = 1 then "MD5" else if P.hash_algo = 2 then "SHA1"
     else strTake (toString P.hash_algo) m) = sigHashStr P.hash_algo := by
  by_cases h1 : P.hash_algo = 1
  · simp [sigHashStr, h1]
  · by_cases h2 : P.hash_algo = 2
    · simp [sigHashStr, h1, h2]
    · simp only [sigHashStr, h1, h2, if_false] at h ⊢
      exact strTake_of_le _ _ h

lemma sigPass_eq (E : ExtFns) (P : SigParams) (nb : Nat)
    (hA : (sigAlgoStr P.pubkey_algo).length ≤ nb - 1)
    (hH : (sigHashStr P.hash_algo).length ≤ nb - ((sigAlgoStr P.pubkey_algo).length + 1) - 1) :
    sigPass E P nb =
      (if (sigAlgoStr P.pubkey_algo).length + 5 ≥ nb then none else
       if (sigAlgoStr P.pubkey_algo).length + 1 + (sigHashStr P.hash_algo).length + 3 ≥ nb
         then none else
       if (sigAlgoStr P.pubkey_algo).length + 1 + (sigHashStr P.hash_algo).length + 2 +
           (if (sigDateStr E P).length + 1 ≤
               nb - ((sigAlgoStr P.pubkey_algo).length + 1 + (sigHashStr P.hash_algo).length + 2)
             then sigDateStr E P else "").length + 10 ≥ nb then none else
       if (sigAlgoStr P.pubkey_algo).length + 1 + (sigHashStr P.hash_algo).length + 2 +
           (if (sigDateStr E P).length + 1 ≤
               nb - ((sigAlgoStr P.pubkey_algo).length + 1 + (sigHashStr P.hash_algo).length + 2)
             then sigDateStr E P else "").length + 9 + (sigKeyStr P).length > nb then none else
       some (sigAlgoStr P.pubkey_algo ++ "/" ++ sigHashStr P.hash_algo ++ ", " ++
         (if (sigDateStr E P).length + 1 ≤
             nb - ((sigAlgoStr P.pubkey_algo).length + 1 + (sigHashStr P.hash_algo).length + 2)
           then sigDateStr E P else "") ++ ", Key ID " ++ sigKeyStr P)) := by
  simp only [sigPass]
  rw [sigW1 P nb hA, sigW2 P _ hH]

lemma sigPass_big (E : ExtFns) (P : SigParams) (nb : Nat) (h : sigLen E P + 11 ≤ nb) :
    sigPass E P nb = some (sigSingle E P) := by
  unfold sigLen at h
  rw [sigPass_eq E P nb (by omega) (by omega)]
  have hwd : (if (sigDateStr E P).length + 1 ≤
      nb - ((sigAlgoStr P.pubkey_algo).length + 1 + (sigHashStr P.hash_algo).length + 2)
    then sigDateStr E P else "") = sigDateStr E P := if_pos (by omega)
  rw [hwd, if_neg (by omega), if_neg (by omega), if_neg (by omega), if_neg (by omega)]
  rfl

lemma sigPass_fit_cases (E : ExtFns) (P : SigParams) (nb : Nat) (h100 : 100 ≤ nb)
    (hfit : (sigAlgoStr P.pubkey_algo).length + (sigHashStr P.hash_algo).length +
      (sigDateStr E P).length + 3 ≤ nb - 1) :
    sigPass E P nb = none ∨ sigPass E P nb = some (sigSingle E P) := by
  rw [sigPass_eq E P nb (by omega) (by omega)]
  have hwd : (if (sigDateStr E P).length + 1 ≤
      nb - ((sigAlgoStr P.pubkey_algo).length + 1 + (sigHashStr P.hash_algo).length + 2)
    then sigDateStr E P else "") = sigDateStr E P := if_pos (by omega)
  rw [hwd]
  split_ifs with h1 h2 h3 h4
  · exact Or.inl rfl
  · exact Or.inl rfl
  · exact Or.inl rfl
  · exact Or.inl rfl
  · exact Or.inr rfl

lemma sigLoop_some (E : ExtFns) (P : SigParams) :
    ∀ (f nb : Nat), sigLen E P + 11 ≤ nb + 100 * f →
      (sigLoop E P (f + 1) nb).isSome = true := by
  intro f
  induction f with
  | zero =>
    intro nb h
    simp only [sigLoop]
    rw [sigPass_big E P nb (by omega)]
    rfl
  | succ f ih =>
    intro nb h
    simp only [sigLoop]
    cases hp : sigPass E P nb with
    | some s => rfl
    | none => exact ih (nb + 100) (by omega)

lemma sigLoop_fit (E : ExtFns) (P : SigParams)
    (hfit : (sigAlgoStr P.pubkey_algo).length + (sigHashStr P.hash_algo).length +
      (sigDateStr E P).length + 3 ≤ 99) :
    ∀ (f nb : Nat), 100 ≤ nb → sigLen E P + 11 ≤ nb + 100 * f →
      sigLoop E P (f + 1) nb = some (sigSingle E P) := by
  intro f
  induction f with
  | zero =>
    intro nb h100 h
    simp only [sigLoop]
    rw [sigPass_big E P nb (by omega)]
  | succ f ih =>
    intro nb h100 h
    simp only [sigLoop]
    rcases sigPass_fit_cases E P nb h100 (by omega) with hp | hp
    · rw [hp]
      exact ih (nb + 100) (by omega) (by omega)
    · rw [hp]

lemma pgpsigRender_isSome (E : ExtFns) (P : SigParams) :
    (pgpsigRender E P).isSome = true := by
  unfold pgpsigRender
  rw [(rfl : sigLen E P / 100 + 2 = (sigLen E P / 100 + 1) + 1)]
  apply sigLoop_some
  omega

lemma pgpsigRender_fit (E : ExtFns) (P : SigParams)
    (hfit : (sigAlgoStr P.pubkey_algo).length + (sigHashStr P.hash_algo).length +
      (sigDateStr E P).length ≤ 96) :
    pgpsigRender E P = some (sigSingle E P) := by
  unfold pgpsigRender
  rw [(rfl : sigLen E P / 100 + 2 = (sigLen E P / 100 + 1) + 1)]
  apply sigLoop_fit E P (by omega)
  · omega
  · omega

lemma dsaSha1Shift (w k : String) :
    "DSA" ++ "/" ++ "SHA1" ++ ", " ++ w ++ ", Key ID " ++ k =
      "DSA/SHA1, " ++ (w ++ (", Key ID " ++ k)) := by
  rw [(rfl : "DSA" ++ "/" ++ "SHA1" ++ ", " = "DSA/SHA1, ")]
  simp [String.append_assoc]

lemma sigPass_dsa_sha1 (E : ExtFns) (P : SigParams) (nb : Nat) (s : String)
    (ha : P.pubkey_algo = 17) (hh : P.hash_algo = 2)
    (hp : sigPass E P nb = some s) : ∃ t, s = "DSA/SHA1, " ++ t := by
  simp only [sigPass, ha, hh] at hp
  norm_num at hp
  split_ifs at hp with hd <;>
    obtain ⟨_, _, _, _, heq⟩ := hp <;>
    exact ⟨_, heq.symm.trans (dsaSha1Shift _ _)⟩

lemma sigLoop_dsa_sha1 (E : ExtFns) (P : SigParams)
    (ha : P.pubkey_algo = 17) (hh : P.hash_algo = 2) :
    ∀ (f nb : Nat) (s : String), sigLoop E P f nb = some s →
      ∃ t, s = "DSA/SHA1, " ++ t := by
  intro f
  induction f with
  | zero => intro nb s h; simp [sigLoop] at h
  | succ f ih =>
    intro nb s h
    simp only [sigLoop] at h
    cases hp : sigPass E P nb with
    | some s2 =>
      rw [hp] at h
      exact (Option.some.inj h) ▸ sigPass_dsa_sha1 E P nb s2 ha hh hp
    | none =>
      rw [hp] at h
      exact ih (nb + 100) s h

lemma pgpsigHdr_pos (data : List Nat) (t n : Nat) (h : pgpsigHdr data = some (t, n)) :
    0 < n := by
  simp only [pgpsigHdr] at h
  split_ifs at h with h1 h2 <;>
  first
  | (simp only [Option.some.injEq, Prod.mk.injEq] at h
     rw [← h.2]
     exact Nat.add_pos_left (Nat.add_pos_left Nat.one_pos _) _)
  | simp at h

lemma pgpsigFormat_total (E : ExtFns) (td : Rpmtd) (fp : String) :
    ((pgpsigFormat E td fp).2).isSome = true := by
  unfold pgpsigFormat
  split
  · rfl
  · split
    · rfl
    · split
      · rfl
      · exact pgpsigRender_isSome E _

lemma pgpsigFormat_sig (E : ExtFns) (td : Rpmtd) (fp : String) (pktlen : Nat)
    (hty : td.ttype = .bin)
    (hhdr : pgpsigHdr td.data = some (PGPTAG_SIGNATURE, pktlen)) :
    (pgpsigFormat E td fp).2 = pgpsigRender E (E.pgpPrt td.data pktlen) := by
  have h0 := pgpsigHdr_pos td.data _ _ hhdr
  unfold pgpsigFormat
  rw [if_neg (by simp [hty])]
  rw [hhdr]
  show (if pktlen = 0 ∨ PGPTAG_SIGNATURE ≠ PGPTAG_SIGNATURE
      then (fp, some "(not an OpenPGP signature)")
      else (fp, pgpsigRender E (E.pgpPrt td.data pktlen))).2 =
    pgpsigRender E (E.pgpPrt td.data pktlen)
  rw [if_neg (by simp; omega)]

/-- C1 (amended): for every Binary tagged value containing a valid
signature packet the retry until fits loop terminates, and whenever the
algorithm name, hash name and localized date together are at most 96 bytes,
so that the date fits the free space of the first 100 byte buffer, the
string it returns is identical to the single pass rendering of the same
fixed structure into an unbounded buffer, with the number of restarts not
observable; a longer date is silently dropped by strftime without
triggering a restart (see the counterexample). -/
theorem c1_retry_loop_refines :
    (∀ (E : ExtFns) (td : Rpmtd) (fp : String), ((pgpsigFormat E td fp).2).isSome = true)
    ∧ (∀ (E : ExtFns) (td : Rpmtd) (fp : String) (pktlen : Nat),
        td.ttype = .bin →
        pgpsigHdr td.data = some (PGPTAG_SIGNATURE, pktlen) →
        (sigAlgoStr (E.pgpPrt td.data pktlen).pubkey_algo).length +
          (sigHashStr (E.pgpPrt td.data pktlen).hash_algo).length +
          (sigDateStr E (E.pgpPrt td.data pktlen)).length ≤ 96 →
        (pgpsigFormat E td fp).2 = some (sigSingle E (E.pgpPrt td.data pktlen))) := by
  constructor
  · exact pgpsigFormat_total
  · intro E td fp pktlen hty hhdr hfit
    rw [pgpsigFormat_sig E td fp pktlen hty hhdr]
    exact pgpsigRender_fit E _ hfit

theorem c1_retry_loop_refines_witness :
    (tdSigPkt.ttype = RpmTagType.bin ∧
      pgpsigHdr tdSigPkt.data = some (PGPTAG_SIGNATURE, 3) ∧
      (sigAlgoStr (extOk.pgpPrt tdSigPkt.data 3).pubkey_algo).length +
        (sigHashStr (extOk.pgpPrt tdSigPkt.data 3).hash_algo).length +
        (sigDateStr extOk (extOk.pgpPrt tdSigPkt.data 3)).length ≤ 96) ∧
    (pgpsigFormat extOk tdSigPkt "%").2 =
      some (sigSingle extOk (extOk.pgpPrt tdSigPkt.data 3)) :=
  ⟨⟨rfl, by decide, by decide⟩,
    c1_retry_loop_refines.2 extOk tdSigPkt "%" 3 rfl (by decide) (by decide)⟩

/-- C1 counterexample: with a localized date of 95 characters, too long for
the free space of the first 100 byte buffer, the loop result differs from
the single pass rendering: strftime writes nothing, no slack check fails,
and the returned summary omits the date. -/
theorem c1_counterexample :
    (pgpsigFormat extLongDate tdSigPkt "%").2 ≠
      some (sigSingle extLongDate (extLongDate.pgpPrt tdSigPkt.data 3)) := by
  decide

/-- C5: a Binary value whose first byte has bit 7 clear yields exactly the
diagnostic (not an OpenPGP signature); a Binary value encoding a valid old
format signature packet (bit 7 set, bit 6 clear, tag bits equal to the
signature tag) whose parsed public key algorithm is DSA and hash algorithm
is SHA1 yields a string starting with DSA/SHA1 and a comma. -/
theorem c5_signature_summary :
    (∀ (E : ExtFns) (td : Rpmtd) (fp : String),
        td.ttype = .bin → td.data.headD 0 % 256 &&& 128 = 0 →
        (pgpsigFormat E td fp).2 = some "(not an OpenPGP signature)")
    ∧ (∀ (E : ExtFns) (td : Rpmtd) (fp : String) (v : Nat) (rest : List Nat),
        td.ttype = .bin → td.data = v :: rest →
        v % 256 &&& 128 ≠ 0 → v % 256 &&& 64 = 0 → ((v % 256) >>> 2) &&& 15 = 2 →
        (E.pgpPrt td.data
          (1 + 2 ^ (v % 256 &&& 3) + pgpGrab rest (2 ^ (v % 256 &&& 3)))).pubkey_algo = 17 →
        (E.pgpPrt td.data
          (1 + 2 ^ (v % 256 &&& 3) + pgpGrab rest (2 ^ (v % 256 &&& 3)))).hash_algo = 2 →
        ∃ t, (pgpsigFormat E td fp).2 = some ("DSA/SHA1, " ++ t)) := by
  constructor
  · intro E td fp hty h7
    unfold pgpsigFormat
    rw [if_neg (by simp [hty])]
    have hh : pgpsigHdr td.data = none := by
      simp only [pgpsigHdr]
      rw [if_neg (by simpa using h7)]
    rw [hh]
  · intro E td fp v rest hty hdata h7 h6 htag ha hh
    have hhdr : pgpsigHdr td.data =
        some (PGPTAG_SIGNATURE,
          1 + 2 ^ (v % 256 &&& 3) + pgpGrab rest (2 ^ (v % 256 &&& 3))) := by
      simp only [pgpsigHdr, hdata, List.headD_cons, List.drop_succ_cons, List.drop_zero]
      rw [if_pos h7, if_neg (by simp [h6]), htag]
      rfl
    rw [pgpsigFormat_sig E td fp _ hty hhdr]
    obtain ⟨s, hs⟩ := Option.isSome_iff_exists.mp (pgpsigRender_isSome E
      (E.pgpPrt td.data (1 + 2 ^ (v % 256 &&& 3) + pgpGrab rest (2 ^ (v % 256 &&& 3)))))
    have hs2 := hs
    unfold pgpsigRender at hs2
    obtain ⟨t, ht⟩ := sigLoop_dsa_sha1 E _ ha hh _ 100 s hs2
    exact ⟨t, by rw [hs, ht]⟩

theorem c5_signature_summary_witness :
    (tdNotSig.ttype = RpmTagType.bin ∧ tdNotSig.data.headD 0 % 256 &&& 128 = 0 ∧
      (pgpsigFormat extOk tdNotSig "%").2 = some "(not an OpenPGP signature)") ∧
    (tdSigPkt.ttype = RpmTagType.bin ∧ tdSigPkt.data = 136 :: [1, 0] ∧
      ∃ t, (pgpsigFormat extOk tdSigPkt "%").2 = some ("DSA/SHA1, " ++ t)) :=
  ⟨⟨rfl, by decide, c5_signature_summary.1 extOk tdNotSig "%" rfl (by decide)⟩,
   ⟨rfl, rfl, c5_signature_summary.2 extOk tdSigPkt "%" 136 [1, 0] rfl rfl
      (by decide) (by decide) (by decide) (by decide) (by decide)⟩⟩

/-- C9: registry lookup scans the table in declared order and returns the
first exact name match: permissions and perms resolve to the same converter,
and an unknown name gives the distinguished not found result. -/
theorem c9_registry_lookup :
    rpmHeaderFormatFuncByName "permissions" = some FmtId.perms ∧
    rpmHeaderFormatFuncByName "perms" = some FmtId.perms ∧
    rpmHeaderFormatFuncByName "permissions" = rpmHeaderFormatFuncByName "perms" ∧
    rpmHeaderFormatFuncByName "nonexistent" = none := by
  refine ⟨rfl, rfl, rfl, rfl⟩

/-- C10: for every tagged value whose kind is not Binary the pgpsig
converter returns exactly the placeholder (not a blob), which is the same
type mismatch placeholder the base64 converter uses and differs from the
not an OpenPGP signature diagnostic. -/
theorem c10_pgpsig_not_blob :
    ∀ (E : ExtFns) (td : Rpmtd) (fp : String), td.ttype ≠ .bin →
      (pgpsigFormat E td fp).2 = some "(not a blob)" ∧
      (∀ (td2 : Rpmtd) (fp2 : String), td2.ttype ≠ .bin →
        (base64Format E td2 fp2).2 = some "(not a blob)") ∧
      ("(not a blob)" : String) ≠ "(not an OpenPGP signature)" := by
  intro E td fp h
  refine ⟨?_, ?_, by decide⟩
  · unfold pgpsigFormat
    rw [if_pos h]
  · intro td2 fp2 h2
    unfold base64Format
    rw [if_pos h2]

theorem c10_pgpsig_not_blob_witness :
    tdTrig.ttype ≠ RpmTagType.bin ∧
    ((pgpsigFormat extOk tdTrig "%").2 = some "(not a blob)" ∧
      (∀ (td2 : Rpmtd) (fp2 : String), td2.ttype ≠ .bin →
        (base64Format extOk td2 fp2).2 = some "(not a blob)") ∧
      ("(not a blob)" : String) ≠ "(not an OpenPGP signature)") :=
  ⟨by decide, c10_pgpsig_not_blob extOk tdTrig "%" (by decide)⟩

/-- C6: for every tagged value whose kind is not Int32, each of the octal,
hex, date, day, perms, triggertype, depflags and fflags converters returns
exactly the placeholder (not a number). -/
theorem c6_not_a_number :
    ∀ (E : ExtFns) (td : Rpmtd) (fp : String), td.ttype ≠ .int32 →
      (octalFormat td fp).2 = some "(not a number)" ∧
      (hexFormat td fp).2 = some "(not a number)" ∧
      (dateFormat E td fp).2 = some "(not a number)" ∧
      (dayFormat E td fp).2 = some "(not a number)" ∧
      (permsFormat E td fp).2 = some "(not a number)" ∧
      (triggertypeFormat td fp).2 = some "(not a number)" ∧
      (depflagsFormat td fp).2 = some "(not a number)" ∧
      (fflagsFormat td fp).2 = some "(not a number)" := by
  intro E td fp h
  refine ⟨?_, ?_, ?_, ?_, ?_, ?_, ?_, ?_⟩ <;>
    simp [octalFormat, hexFormat, dateFormat, dayFormat, realDateFormat, permsFormat,
      triggertypeFormat, depflagsFormat, fflagsFormat, h]

theorem c6_not_a_number_witness :
    tdStr.ttype ≠ RpmTagType.int32 ∧
    ((octalFormat tdStr "%").2 = some "(not a number)" ∧
      (hexFormat tdStr "%").2 = some "(not a number)" ∧
      (dateFormat extOk tdStr "%").2 = some "(not a number)" ∧
      (dayFormat extOk tdStr "%").2 = some "(not a number)" ∧
      (permsFormat extOk tdStr "%").2 = some "(not a number)" ∧
      (triggertypeFormat tdStr "%").2 = some "(not a number)" ∧
      (depflagsFormat tdStr "%").2 = some "(not a number)" ∧
      (fflagsFormat tdStr "%").2 = some "(not a number)") :=
  ⟨by decide, c6_not_a_number extOk tdStr "%" (by decide)⟩

lemma sprintfPct_pct_s (x : String) : sprintfPct ("%" ++ "s") (PArg.str x) = x := rfl

lemma sprintfPct_pct_d (i : Int) : sprintfPct ("%" ++ "d") (PArg.int i) = toString i := rfl

lemma sprintfPct_pct_u (n : Nat) : sprintfPct ("%" ++ "u") (PArg.nat n) = toString n := rfl

lemma pgpsigFormat_fst (E : ExtFns) (td : Rpmtd) (fp : String) :
    (pgpsigFormat E td fp).1 = fp := by
  unfold pgpsigFormat
  split
  · rfl
  · split
    · rfl
    · split <;> rfl

lemma stringFormat_total (td : Rpmtd) (fp : String) :
    ((stringFormat td fp).2).isSome = true := by
  unfold stringFormat
  split <;> rfl

lemma armorFormat_total (E : ExtFns) (td : Rpmtd) (fp : String) :
    ((armorFormat E td fp).2).isSome = true := by
  unfold armorFormat
  split <;> first | rfl | (split <;> rfl)

lemma xmlFormat_total (E : ExtFns) (td : Rpmtd) (fp : String) :
    ((xmlFormat E td fp).2).isSome = true := by
  unfold xmlFormat
  split <;> first | rfl | (dsimp only; split <;> rfl)

lemma triggertypeFormat_total (td : Rpmtd) (fp : String) :
    ((triggertypeFormat td fp).2).isSome = true := by
  unfold triggertypeFormat
  split_ifs <;> rfl

/-- C3 (amended): every converter except base64 returns a string on every
tagged value; the base64 converter returns the type mismatch placeholder
for non Binary values, and for Binary values it returns a string exactly
when the external encoding primitive succeeds — when the primitive fails it
returns the NULL initial value (no string). -/
theorem c3_totality :
    (∀ (E : ExtFns) (td : Rpmtd) (fp : String),
      ((stringFormat td fp).2).isSome = true ∧
      ((octalFormat td fp).2).isSome = true ∧
      ((hexFormat td fp).2).isSome = true ∧
      ((dateFormat E td fp).2).isSome = true ∧
      ((dayFormat E td fp).2).isSome = true ∧
      ((shescapeFormat td fp).2).isSome = true ∧
      ((triggertypeFormat td fp).2).isSome = true ∧
      ((permsFormat E td fp).2).isSome = true ∧
      ((fflagsFormat td fp).2).isSome = true ∧
      ((depflagsFormat td fp).2).isSome = true ∧
      ((armorFormat E td fp).2).isSome = true ∧
      ((xmlFormat E td fp).2).isSome = true ∧
      ((pgpsigFormat E td fp).2).isSome = true ∧
      ((arraysizeFormat td fp).2).isSome = true) ∧
    (∀ (E : ExtFns) (td : Rpmtd) (fp : String), td.ttype ≠ .bin →
      (base64Format E td fp).2 = some "(not a blob)") ∧
    (∀ (E : ExtFns) (td : Rpmtd) (fp : String), td.ttype = .bin →
      ((base64Format E td fp).2 = none ↔ E.b64encode td.data td.count = none)) := by
  refine ⟨?_, ?_, ?_⟩
  · intro E td fp
    refine ⟨stringFormat_total td fp, ?_, ?_, ?_, ?_, ?_,
      triggertypeFormat_total td fp, ?_, ?_, ?_, armorFormat_total E td fp,
      xmlFormat_total E td fp, pgpsigFormat_total E td fp, rfl⟩ <;>
    · first
      | (unfold octalFormat; split <;> rfl)
      | (unfold hexFormat; split <;> rfl)
      | (unfold dateFormat realDateFormat; split <;> rfl)
      | (unfold dayFormat realDateFormat; split <;> rfl)
      | (unfold shescapeFormat; split <;> rfl)
      | (unfold permsFormat; split <;> rfl)
      | (unfold fflagsFormat; split <;> rfl)
      | (unfold depflagsFormat; split <;> rfl)
  · intro E td fp h
    unfold base64Format
    rw [if_pos h]
  · intro E td fp h
    unfold base64Format
    rw [if_neg (by simp [h])]
    cases henc : E.b64encode td.data td.count <;> simp

/-- C3 counterexample: on a Binary value, with an encoding primitive that
fails, the base64 converter returns no string at all, refuting the claim
that it returns a string even when the primitive fails. -/
theorem c3_counterexample :
    (base64Format extEncFail tdBin0 "%").2 = none := by
  decide

theorem c3_totality_witness :
    (tdStr.ttype ≠ RpmTagType.bin ∧
      (base64Format extOk tdStr "%").2 = some "(not a blob)") ∧
    (tdBin0.ttype = RpmTagType.bin ∧
      ((base64Format extOk tdBin0 "%").2 = none ↔
        extOk.b64encode tdBin0.data tdBin0.count = none)) :=
  ⟨⟨by decide, c3_totality.2.1 extOk tdStr "%" (by decide)⟩,
   ⟨rfl, c3_totality.2.2 extOk tdBin0 "%" rfl⟩⟩

lemma armorFormat_fst (E : ExtFns) (td : Rpmtd) (fp : String) :
    (armorFormat E td fp).1 = fp := by
  unfold armorFormat
  split <;> first | rfl | (split <;> rfl)

lemma triggertypeFormat_fst (td : Rpmtd) (fp : String) :
    (triggertypeFormat td fp).1 = fp := by
  unfold triggertypeFormat
  split_ifs <;> rfl

lemma armorFormat_snd (E : ExtFns) (td : Rpmtd) (fp fp2 : String) :
    (armorFormat E td fp).2 = (armorFormat E td fp2).2 := by
  unfold armorFormat
  split <;> first | rfl | (split <;> rfl)

lemma triggertypeFormat_snd (td : Rpmtd) (fp fp2 : String) :
    (triggertypeFormat td fp).2 = (triggertypeFormat td fp2).2 := by
  unfold triggertypeFormat
  split_ifs <;> rfl

lemma pgpsigFormat_snd (E : ExtFns) (td : Rpmtd) (fp fp2 : String) :
    (pgpsigFormat E td fp).2 = (pgpsigFormat E td fp2).2 := by
  unfold pgpsigFormat
  split
  · rfl
  · split
    · rfl
    · split <;> rfl

lemma xmlFormat_snd (E : ExtFns) (td : Rpmtd) (fp fp2 : String) :
    (xmlFormat E td fp).2 = (xmlFormat E td fp2).2 := by
  unfold xmlFormat
  split <;> first | rfl | (dsimp only; split <;> rfl)

/-- C2 (amended): every converter in the registry leaves the caller
supplied template intact except for an appended suffix that is at most one
conversion specifier; the string, octal, hex, date, day, perms, fflags,
depflags, shescape, arraysize and base64 converters append exactly one
specifier on their success paths and render their result through the
extended template (third part below); but the armor, triggertype and
pgpsig converters append no specifier and render independently of the
template, and the xml converter appends one s specifier yet also renders
its result independently of the template, so the claim that every
converter appends exactly one specifier and renders through the template
fails (see the counterexample). -/
theorem c2_template_appends :
    (∀ (E : ExtFns) (f : FmtId) (td : Rpmtd) (fp : String),
      ∃ s, (applyFmt E f td fp).1 = fp ++ s ∧
        s ∈ (["", "u", "lu", "o", "x", "d", "s"] : List String)) ∧
    (∀ (E : ExtFns) (td : Rpmtd) (fp fp2 : String),
      (applyFmt E .armor td fp).1 = fp ∧
      (applyFmt E .triggertype td fp).1 = fp ∧
      (applyFmt E .pgpsig td fp).1 = fp ∧
      (applyFmt E .armor td fp).2 = (applyFmt E .armor td fp2).2 ∧
      (applyFmt E .triggertype td fp).2 = (applyFmt E .triggertype td fp2).2 ∧
      (applyFmt E .pgpsig td fp).2 = (applyFmt E .pgpsig td fp2).2 ∧
      (applyFmt E .xml td fp).2 = (applyFmt E .xml td fp2).2) ∧
    (∀ (E : ExtFns) (td : Rpmtd) (fp : String),
      ((td.ttype = .int8 ∨ td.ttype = .char ∨ td.ttype = .int16 ∨ td.ttype = .int32) →
        stringFormat td fp =
          (fp ++ "u", some (sprintfPct (fp ++ "u") (PArg.nat td.num)))) ∧
      (td.ttype = .int64 →
        stringFormat td fp =
          (fp ++ "lu", some (sprintfPct (fp ++ "lu") (PArg.nat td.num)))) ∧
      ((td.ttype = .str ∨ td.ttype = .strArray ∨ td.ttype = .i18nStr) →
        stringFormat td fp =
          (fp ++ "s", some (sprintfPct (fp ++ "s") (PArg.str td.str)))) ∧
      (td.ttype = .bin →
        stringFormat td fp =
          (fp ++ "s",
            some (sprintfPct (fp ++ "s") (PArg.str (pgpHexStr td.data td.count))))) ∧
      (td.ttype = .int32 →
        octalFormat td fp =
          (fp ++ "o", some (sprintfPct (fp ++ "o") (PArg.nat td.num))) ∧
        hexFormat td fp =
          (fp ++ "x", some (sprintfPct (fp ++ "x") (PArg.nat td.num))) ∧
        dateFormat E td fp =
          (fp ++ "s", some (sprintfPct (fp ++ "s") (PArg.str
            (if E.localtimeOk td.num then
              (if (E.strftimeC td.num).length ≤ 48 then E.strftimeC td.num else "")
            else "")))) ∧
        dayFormat E td fp =
          (fp ++ "s", some (sprintfPct (fp ++ "s") (PArg.str
            (if E.localtimeOk td.num then
              (if (E.strftimeDay td.num).length ≤ 48 then E.strftimeDay td.num else "")
            else "")))) ∧
        permsFormat E td fp =
          (fp ++ "s", some (sprintfPct (fp ++ "s") (PArg.str (E.rpmPermsString td.num)))) ∧
        fflagsFormat td fp =
          (fp ++ "s", some (sprintfPct (fp ++ "s") (PArg.str (fflagsStr td.num)))) ∧
        depflagsFormat td fp =
          (fp ++ "s", some (sprintfPct (fp ++ "s") (PArg.str (depflagsStr td.num)))) ∧
        shescapeFormat td fp =
          (fp ++ "d", some (sprintfPct (fp ++ "d") (PArg.int (int32Of td.num))))) ∧
      (td.ttype ≠ .int32 →
        shescapeFormat td fp =
          (fp ++ "s",
            some (shQuote (sprintfPct (fp ++ "s") (PArg.str (rpmtdGetString td)))))) ∧
      arraysizeFormat td fp =
        (fp ++ "u", some (sprintfPct (fp ++ "u") (PArg.nat td.count))) ∧
      (∀ enc : String, td.ttype = .bin → E.b64encode td.data td.count = some enc →
        base64Format E td fp =
          (fp ++ "s", some (sprintfPct (fp ++ "s") (PArg.str enc)))) ∧
      (td.ttype ≠ .null → td.ttype ≠ .int64 → (xmlFormat E td fp).1 = fp ++ "s")) := by
  refine ⟨?_, ?_, ?_⟩
  · intro E f td fp
    cases f with
    | str =>
      simp only [applyFmt]
      unfold stringFormat
      split <;>
        first
        | exact ⟨"u", rfl, by decide⟩
        | exact ⟨"lu", rfl, by decide⟩
        | exact ⟨"s", rfl, by decide⟩
        | exact ⟨"", (String.append_empty fp).symm, by decide⟩
    | armor =>
      refine ⟨"", ?_, by decide⟩
      rw [String.append_empty]
      exact armorFormat_fst E td fp
    | base64 =>
      simp only [applyFmt]
      unfold base64Format
      split
      · exact ⟨"", (String.append_empty fp).symm, by decide⟩
      · split
        · exact ⟨"s", rfl, by decide⟩
        · exact ⟨"", (String.append_empty fp).symm, by decide⟩
    | pgpsig =>
      refine ⟨"", ?_, by decide⟩
      rw [String.append_empty]
      exact pgpsigFormat_fst E td fp
    | depflags =>
      simp only [applyFmt]
      unfold depflagsFormat
      split
      · exact ⟨"", (String.append_empty fp).symm, by decide⟩
      · exact ⟨"s", rfl, by decide⟩
    | fflags =>
      simp only [applyFmt]
      unfold fflagsFormat
      split
      · exact ⟨"", (String.append_empty fp).symm, by decide⟩
      · exact ⟨"s", rfl, by decide⟩
    | perms =>
      simp only [applyFmt]
      unfold permsFormat
      split
      · exact ⟨"", (String.append_empty fp).symm, by decide⟩
      · exact ⟨"s", rfl, by decide⟩
    | triggertype =>
      refine ⟨"", ?_, by decide⟩
      rw [String.append_empty]
      exact triggertypeFormat_fst td fp
    | xml =>
      simp only [applyFmt]
      unfold xmlFormat
      split <;>
        first
        | exact ⟨"", (String.append_empty fp).symm, by decide⟩
        | (dsimp only; split <;> exact ⟨"s", rfl, by decide⟩)
    | octal =>
      simp only [applyFmt]
      unfold octalFormat
      split
      · exact ⟨"", (String.append_empty fp).symm, by decide⟩
      · exact ⟨"o", rfl, by decide⟩
    | hex =>
      simp only [applyFmt]
      unfold hexFormat
      split
      · exact ⟨"", (String.append_empty fp).symm, by decide⟩
      · exact ⟨"x", rfl, by decide⟩
    | date =>
      simp only [applyFmt]
      unfold dateFormat realDateFormat
      split
      · exact ⟨"", (String.append_empty fp).symm, by decide⟩
      · exact ⟨"s", rfl, by decide⟩
    | day =>
      simp only [applyFmt]
      unfold dayFormat realDateFormat
      split
      · exact ⟨"", (String.append_empty fp).symm, by decide⟩
      · exact ⟨"s", rfl, by decide⟩
    | shescape =>
      simp only [applyFmt]
      unfold shescapeFormat
      split
      · exact ⟨"d", rfl, by decide⟩
      · exact ⟨"s", rfl, by decide⟩
    | arraysize => exact ⟨"u", rfl, by decide⟩
  · intro E td fp fp2
    exact ⟨armorFormat_fst E td fp, triggertypeFormat_fst td fp, pgpsigFormat_fst E td fp,
      armorFormat_snd E td fp fp2, triggertypeFormat_snd td fp fp2,
      pgpsigFormat_snd E td fp fp2, xmlFormat_snd E td fp fp2⟩
  · intro E td fp
    refine ⟨?_, ?_, ?_, ?_, ?_, ?_, rfl, ?_, ?_⟩
    · intro h
      rcases h with h | h | h | h <;>
        · unfold stringFormat
          rw [h]
    · intro h
      unfold stringFormat
      rw [h]
    · intro h
      rcases h with h | h | h <;>
        · unfold stringFormat
          rw [h]
    · intro h
      unfold stringFormat
      rw [h]
    · intro h
      refine ⟨?_, ?_, ?_, ?_, ?_, ?_, ?_, ?_⟩ <;>
        · first
          | (unfold octalFormat; rw [if_neg (by simp [h])])
          | (unfold hexFormat; rw [if_neg (by simp [h])])
          | (unfold dateFormat realDateFormat; rw [if_neg (by simp [h])])
          | (unfold dayFormat realDateFormat; rw [if_neg (by simp [h])])
          | (unfold permsFormat; rw [if_neg (by simp [h])])
          | (unfold fflagsFormat; rw [if_neg (by simp [h])])
          | (unfold depflagsFormat; rw [if_neg (by simp [h])])
          | (unfold shescapeFormat; rw [if_pos h])
    · intro h
      unfold shescapeFormat
      rw [if_neg h]
    · intro enc hbin henc
      unfold base64Format
      rw [if_neg (by simp [hbin]), henc]
    · intro h1 h2
      unfold xmlFormat
      split <;>
        first
        | (dsimp only; split <;> rfl)
        | (cases htt : td.ttype <;> simp_all)

/-- C2 counterexample: the triggertype converter, reached through the
registry, accepts an Int32 value and returns a real result string, yet
hands back the caller supplied template unchanged — appending any of the
conversion specifiers would have changed it. -/
theorem c2_counterexample :
    rpmHeaderFormatFuncByName "triggertype" = some FmtId.triggertype ∧
    applyFmt extOk FmtId.triggertype tdTrig "%" = ("%", some "prein") ∧
    (["u", "lu", "o", "x", "d", "s"] : List String).all
      (fun sp => "%" ++ sp != "%") = true :=
  ⟨rfl, by decide, by decide⟩

theorem c2_template_appends_witness :
    ((tdStr.ttype = RpmTagType.str ∨ tdStr.ttype = RpmTagType.strArray ∨
        tdStr.ttype = RpmTagType.i18nStr) ∧
      stringFormat tdStr "%" =
        ("%" ++ "s", some (sprintfPct ("%" ++ "s") (PArg.str tdStr.str)))) ∧
    (tdGhostDoc.ttype = RpmTagType.int32 ∧
      octalFormat tdGhostDoc "%" =
        ("%" ++ "o", some (sprintfPct ("%" ++ "o") (PArg.nat tdGhostDoc.num)))) ∧
    (tdBin0.ttype = RpmTagType.bin ∧
      extOk.b64encode tdBin0.data tdBin0.count = some "" ∧
      base64Format extOk tdBin0 "%" =
        ("%" ++ "s", some (sprintfPct ("%" ++ "s") (PArg.str "")))) ∧
    (tdStr.ttype ≠ RpmTagType.null ∧ tdStr.ttype ≠ RpmTagType.int64 ∧
      (xmlFormat extOk tdStr "%").1 = "%" ++ "s") :=
  ⟨⟨Or.inl rfl, (c2_template_appends.2.2 extOk tdStr "%").2.2.1 (Or.inl rfl)⟩,
   ⟨rfl, ((c2_template_appends.2.2 extOk tdGhostDoc "%").2.2.2.2.1 rfl).1⟩,
   ⟨rfl, rfl, (c2_template_appends.2.2 extOk tdBin0 "%").2.2.2.2.2.2.2.1 "" rfl rfl⟩,
   ⟨by decide, by decide,
     (c2_template_appends.2.2 extOk tdStr "%").2.2.2.2.2.2.2.2 (by decide) (by decide)⟩⟩

lemma shEvalWord_nil : shEvalWord [] = some [] := by
  rw [shEvalWord.eq_def]

lemma shEvalWord_cons (c : Char) (rest : List Char) :
    shEvalWord (c :: rest) =
      if c = squoC then shEvalQuoted rest
      else if c = '\\' then
        match rest with
        | [] => none
        | c2 :: rest2 => (shEvalWord rest2).map (fun l => c2 :: l)
      else (shEvalWord rest).map (fun l => c :: l) := by
  rw [shEvalWord.eq_def]

lemma shEvalQuoted_cons (c : Char) (rest : List Char) :
    shEvalQuoted (c :: rest) =
      if c = squoC then shEvalWord rest
      else (shEvalQuoted rest).map (fun l => c :: l) := by
  rw [shEvalQuoted.eq_def]

lemma shEvalQuoted_esc (l : List Char) :
    shEvalQuoted (l.flatMap shEscL ++ [squoC]) = some l := by
  have hbs : ¬ (('\\' : Char) = squoC) := by decide
  induction l with
  | nil =>
    simp [shEvalQuoted_cons, shEvalWord_nil]
  | cons c l ih =>
    by_cases hc : c = squoC
    · subst hc
      simp [shEscL, shEvalQuoted_cons, shEvalWord_cons, ih, hbs]
    · simp [shEscL, hc, shEvalQuoted_cons, ih]

lemma shEvalWord_shQuote (s : String) :
    shEvalWord (shQuote s).toList = some s.toList := by
  show shEvalWord (squoC :: (s.toList.flatMap shEscL ++ [squoC])) = some s.toList
  rw [shEvalWord_cons, if_pos rfl]
  exact shEvalQuoted_esc s.toList

/-- C4: for every string kind tagged value with content s the shescape
converter returns the single quoted shell literal that evaluates back to
exactly s, with each embedded single quote rendered as the four character
sequence close quote, escaped quote, reopen quote; for an Int32 value it
renders the decimal integer. -/
theorem c4_shescape_roundtrip :
    (∀ td : Rpmtd,
      td.ttype = .str ∨ td.ttype = .strArray ∨ td.ttype = .i18nStr →
      (shescapeFormat td "%").2 = some (shQuote td.str) ∧
      shEvalWord (shQuote td.str).toList = some td.str.toList) ∧
    (shEscL squoC = [squoC, '\\', squoC, squoC] ∧ (shEscL squoC).length = 4) ∧
    (∀ td : Rpmtd, td.ttype = .int32 →
      (shescapeFormat td "%").2 = some (toString (int32Of td.num))) := by
  refine ⟨?_, ⟨rfl, rfl⟩, ?_⟩
  · intro td h
    constructor
    · unfold shescapeFormat
      rcases h with h | h | h <;>
        rw [if_neg (by simp [h])] <;>
        · show some (shQuote (sprintfPct ("%" ++ "s") (PArg.str (rpmtdGetString td)))) =
            some (shQuote td.str)
          rw [sprintfPct_pct_s]
          unfold rpmtdGetString
          rw [h]
    · exact shEvalWord_shQuote td.str
  · intro td h
    unfold shescapeFormat
    rw [if_pos h]
    rfl

theorem c4_shescape_roundtrip_witness :
    ((tdOBrien.ttype = RpmTagType.str ∨ tdOBrien.ttype = RpmTagType.strArray ∨
        tdOBrien.ttype = RpmTagType.i18nStr) ∧
      (shescapeFormat tdOBrien "%").2 = some (shQuote tdOBrien.str) ∧
      shEvalWord (shQuote tdOBrien.str).toList = some tdOBrien.str.toList) ∧
    shQuote tdOBrien.str =
      squo ++ "O" ++ squo ++ "\\" ++ squo ++ squo ++ "Brien" ++ squo ∧
    (tdMinusOne.ttype = RpmTagType.int32 ∧
      (shescapeFormat tdMinusOne "%").2 = some (toString (int32Of tdMinusOne.num)) ∧
      toString (int32Of tdMinusOne.num) = "-1") :=
  ⟨⟨Or.inl rfl, c4_shescape_roundtrip.1 tdOBrien (Or.inl rfl)⟩, by decide,
   ⟨rfl, c4_shescape_roundtrip.2.2 tdMinusOne rfl, by decide⟩⟩

lemma xmlWrapAssoc (s2 : String) :
    "\t<" ++ "string" ++ ">" ++ s2 ++ "</" ++ "string" ++ ">" =
      "\t<string>" ++ s2 ++ "</string>" := by
  rw [(by decide : "\t<" ++ "string" ++ ">" = "\t<string>")]
  rw [String.append_assoc ("\t<string>" ++ s2) "</" "string"]
  rw [(by decide : "</" ++ "string" = "</string")]
  rw [String.append_assoc ("\t<string>" ++ s2) "</string" ">"]
  rw [(by decide : "</string" ++ ">" = "</string>")]

/-- C7: for every string kind tagged value the xml converter replaces every
occurrence of the three xml active characters, leaves every other character
unchanged, and wraps the escaped text as a tab followed by a string
element; empty inner text gives the self closing form. -/
theorem c7_xml_escape :
    ∀ (E : ExtFns) (td : Rpmtd) (fp : String),
      td.ttype = .str ∨ td.ttype = .strArray ∨ td.ttype = .i18nStr →
      (xmlFormat E td fp).2 =
        some (if td.str = "" then "\t<string/>"
          else "\t<string>" ++ xmlEscape td.str ++ "</string>") ∧
      (xmlFormat E td fp).1 = fp ++ "s" ∧
      xmlEscape td.str = String.join (td.str.toList.map xmlEscChar) ∧
      xmlEscChar '<' = "&lt;" ∧ xmlEscChar '>' = "&gt;" ∧ xmlEscChar '&' = "&amp;" ∧
      (∀ c : Char, c ≠ '<' → c ≠ '>' → c ≠ '&' → xmlEscChar c = c.toString) := by
  intro E td fp h
  have hinner : ((stringFormat td "%").2).getD "" = td.str := by
    rcases h with h | h | h <;>
      · unfold stringFormat
        rw [h]
        exact sprintfPct_pct_s td.str
  refine ⟨?_, ?_, rfl, rfl, rfl, rfl, ?_⟩
  · unfold xmlFormat
    rcases h with h | h | h <;>
      · rw [h]
        dsimp only
        rw [hinner]
        split_ifs with hs
        · rfl
        · exact congrArg some (xmlWrapAssoc (xmlEscape td.str))
  · unfold xmlFormat
    rcases h with h | h | h <;>
      · rw [h]
        dsimp only
        split_ifs <;> rfl
  · intro c h1 h2 h3
    unfold xmlEscChar
    rw [if_neg h1, if_neg h2, if_neg h3]

theorem c7_xml_escape_witness :
    (tdStr.ttype = RpmTagType.str ∨ tdStr.ttype = RpmTagType.strArray ∨
      tdStr.ttype = RpmTagType.i18nStr) ∧
    ((xmlFormat extOk tdStr "%").2 =
        some (if tdStr.str = "" then "\t<string/>"
          else "\t<string>" ++ xmlEscape tdStr.str ++ "</string>") ∧
      (xmlFormat extOk tdStr "%").1 = "%" ++ "s" ∧
      xmlEscape tdStr.str = String.join (tdStr.str.toList.map xmlEscChar) ∧
      xmlEscChar '<' = "&lt;" ∧ xmlEscChar '>' = "&gt;" ∧ xmlEscChar '&' = "&amp;" ∧
      (∀ c : Char, c ≠ '<' → c ≠ '>' → c ≠ '&' → xmlEscChar c = c.toString)) ∧
    (xmlFormat extOk tdStr "%").2 = some "\t<string>a&lt;b&amp;c</string>" :=
  ⟨Or.inl rfl, c7_xml_escape extOk tdStr "%" (Or.inl rfl), by decide⟩

lemma ite_optCat (p : Prop) [inst : Decidable p] (s : String) :
    (if p then s else "") = optCat (decide p) s := by
  by_cases h : p <;> simp [optCat, h]

lemma fflagsChain (b1 b2 b3 b4 b5 b6 b7 b8 : Bool) :
    (optCat b1 "d" ++ optCat b2 "c" ++ optCat b3 "s" ++ optCat b4 "m" ++
      optCat b5 "n" ++ optCat b6 "g" ++ optCat b7 "l" ++ optCat b8 "r" =
      String.join ((([(b1, "d"), (b2, "c"), (b3, "s"), (b4, "m"), (b5, "n"),
        (b6, "g"), (b7, "l"), (b8, "r")] : List (Bool × String)).filter
          Prod.fst).map Prod.snd)) ∧
    (optCat b1 "d" ++ optCat b2 "c" ++ optCat b3 "s" ++ optCat b4 "m" ++
      optCat b5 "n" ++ optCat b6 "g" ++ optCat b7 "l" ++ optCat b8 "r").toList.Sublist
      "dcsmnglr".toList := by
  cases b1 <;> cases b2 <;> cases b3 <;> cases b4 <;>
    cases b5 <;> cases b6 <;> cases b7 <;> cases b8 <;> decide

lemma fflagsStr_chain (v : Nat) :
    fflagsStr v =
      optCat (decide (v &&& RPMFILE_DOC ≠ 0)) "d" ++
      optCat (decide (v &&& RPMFILE_CONFIG ≠ 0)) "c" ++
      optCat (decide (v &&& RPMFILE_SPECFILE ≠ 0)) "s" ++
      optCat (decide (v &&& RPMFILE_MISSINGOK ≠ 0)) "m" ++
      optCat (decide (v &&& RPMFILE_NOREPLACE ≠ 0)) "n" ++
      optCat (decide (v &&& RPMFILE_GHOST ≠ 0)) "g" ++
      optCat (decide (v &&& RPMFILE_LICENSE ≠ 0)) "l" ++
      optCat (decide (v &&& RPMFILE_README ≠ 0)) "r" := by
  unfold fflagsStr
  rw [ite_optCat, ite_optCat, ite_optCat, ite_optCat, ite_optCat, ite_optCat,
    ite_optCat, ite_optCat]

/-- C8: the fflags converter emits one character per set flag in the fixed
declared order doc, config, specfile, missingok, noreplace, ghost, license,
readme, omitting characters whose bit is clear; its output character list
is always a subsequence of that fixed order, and a value with only the
GHOST and DOC bits set renders dg, never gd. -/
theorem c8_fflags_fixed_order :
    (∀ td : Rpmtd, td.ttype = .int32 →
      (fflagsFormat td "%").2 = some (fflagsStr td.num)) ∧
    (∀ v : Nat, fflagsStr v =
      String.join (((fflagPairs v).filter Prod.fst).map Prod.snd)) ∧
    (∀ v : Nat, (fflagsStr v).toList.Sublist "dcsmnglr".toList) ∧
    fflagsStr (RPMFILE_GHOST ||| RPMFILE_DOC) = "dg" ∧
    fflagsStr (RPMFILE_GHOST ||| RPMFILE_DOC) ≠ "gd" := by
  refine ⟨?_, ?_, ?_, by decide, by decide⟩
  · intro td h
    unfold fflagsFormat
    rw [if_neg (by simp [h])]
    rfl
  · intro v
    rw [fflagsStr_chain]
    simp only [fflagPairs]
    exact (fflagsChain _ _ _ _ _ _ _ _).1
  · intro v
    rw [fflagsStr_chain]
    exact (fflagsChain _ _ _ _ _ _ _ _).2

theorem c8_fflags_fixed_order_witness :
    tdGhostDoc.ttype = RpmTagType.int32 ∧
    (fflagsFormat tdGhostDoc "%").2 = some (fflagsStr tdGhostDoc.num) ∧
    fflagsStr tdGhostDoc.num = "dg" :=
  ⟨rfl, c8_fflags_fixed_order.1 tdGhostDoc rfl, by decide⟩

end RpmFormat
